import Mathlib

/-
  Verification development for the wechat-mcp-server repository.

  The dispatcher `sendWeChatTextMessage` (src/build/text.js) builds a JSON
  payload, POSTs it to the WeChat webhook endpoint and classifies the
  response into a boolean outcome.  The MCP layer (src/unnamed/part_000)
  wires this dispatcher to a tool capability, and exposes a resource
  capability that reads a local documentation file.

  The HTTP transport is modelled as an oracle `HttpRequest → FetchOutcome`;
  the dispatcher returns, besides its boolean result, the list of requests
  it issued, so that call-count properties can be stated.
-/

/-- An outbound HTTP request as assembled by the dispatcher:
url, method, the Content-Type header and the serialized body. -/
structure HttpRequest where
  url : String
  method : String
  contentType : String
  body : String
deriving DecidableEq

/-- The JSON body of a webhook response, as far as the dispatcher reads it:
the `errcode` field (absent when the JSON object lacks it) and the
`errmsg` field. -/
structure ParsedJson where
  errcode : Option Int
  errmsg : Option String
deriving DecidableEq

/-- Possible outcomes of the `fetch` call as observed by the dispatcher:
a network/transport error (fetch throws), a failure while reading the
response body (`response.text()` / `response.json()` throws), or a
response with a status code, a body text and the result of JSON-parsing
that body (`none` when the body is not valid JSON). -/
inductive FetchOutcome where
  | networkError : FetchOutcome
  | bodyReadError : Nat → FetchOutcome
  | resp : Nat → String → Option ParsedJson → FetchOutcome
deriving DecidableEq

/-- The `text` object of the outbound payload: `content` always, the two
mention lists only when set (mirrors the conditionally-added JS fields). -/
structure TextPayload where
  content : String
  mentioned_list : Option (List String)
  mentioned_mobile_list : Option (List String)
deriving DecidableEq

/-- The outbound webhook payload `bodyPayload` of src/build/text.js. -/
structure WebhookPayload where
  msgtype : String
  text : TextPayload
deriving DecidableEq

/-- The endpoint URL template of src/build/text.js line 2: the webhook key
is interpolated into the template literal verbatim. -/
def WECHAT_API_URL (webhookKey : String) : String :=
  "https://qyapi.weixin.qq.com/cgi-bin/webhook/send?key=" ++ webhookKey

/-- Lowercase hexadecimal digit, used for JSON control-character escapes. -/
def hexDigit (n : Nat) : Char :=
  if n < 10 then Char.ofNat (48 + n) else Char.ofNat (87 + n)

/-- JSON.stringify escaping of a single character: quote, backslash, the
named control escapes, and \u00XX for the remaining control characters. -/
def jsonEscapeChar (c : Char) : String :=
  if c = Char.ofNat 34 then "\\\""
  else if c = Char.ofNat 92 then "\\\\"
  else if c = Char.ofNat 8 then "\\b"
  else if c = Char.ofNat 9 then "\\t"
  else if c = Char.ofNat 10 then "\\n"
  else if c = Char.ofNat 12 then "\\f"
  else if c = Char.ofNat 13 then "\\r"
  else if c.toNat < 32 then
    "\\u00" ++ String.singleton (hexDigit (c.toNat / 16)) ++
      String.singleton (hexDigit (c.toNat % 16))
  else String.singleton c

/-- JSON.stringify escaping of a string body. -/
def jsonEscape (s : String) : String :=
  String.join (s.data.map jsonEscapeChar)

/-- A JSON string literal. -/
def jsonStr (s : String) : String :=
  "\"" ++ jsonEscape s ++ "\""

/-- A JSON array of string literals. -/
def jsonStrArray (l : List String) : String :=
  "[" ++ String.intercalate "," (l.map jsonStr) ++ "]"

/-- Construction of `bodyPayload` (src/build/text.js lines 6-17): msgtype is
the literal "text", the mention lists are attached only when the argument
is present and non-empty. -/
def buildPayload (content : String) (mentioned_list mentioned_mobile_list :
    Option (List String)) : WebhookPayload :=
  { msgtype := "text"
    text :=
      { content := content
        mentioned_list :=
          match mentioned_list with
          | some l => if l.length > 0 then some l else none
          | none => none
        mentioned_mobile_list :=
          match mentioned_mobile_list with
          | some l => if l.length > 0 then some l else none
          | none => none } }

/-- JSON.stringify of the `text` object, keys in insertion order. -/
def stringifyTextObject (t : TextPayload) : String :=
  "\x7b\"content\":" ++ jsonStr t.content ++
    (match t.mentioned_list with
     | some l => ",\"mentioned_list\":" ++ jsonStrArray l
     | none => "") ++
    (match t.mentioned_mobile_list with
     | some l => ",\"mentioned_mobile_list\":" ++ jsonStrArray l
     | none => "") ++ "\x7d"

/-- JSON.stringify of the full payload, keys in insertion order. -/
def stringifyPayload (p : WebhookPayload) : String :=
  "\x7b\"msgtype\":" ++ jsonStr p.msgtype ++ ",\"text\":" ++
    stringifyTextObject p.text ++ "\x7d"

/-- The single HTTP request built by src/build/text.js lines 2-20:
POST to the keyed endpoint URL, JSON content type, stringified payload.
The `chatid` argument appears in the signature but is not used. -/
def buildRequest (webhookKey content : String) (chatid : Option String)
    (mentioned_list mentioned_mobile_list : Option (List String)) : HttpRequest :=
  { url := WECHAT_API_URL webhookKey
    method := "POST"
    contentType := "application/json"
    body := stringifyPayload (buildPayload content mentioned_list mentioned_mobile_list) }

/-- The `response.ok` predicate of fetch: status in the range 200-299. -/
def responseOk (status : Nat) : Bool :=
  decide (200 ≤ status ∧ status ≤ 299)

/-- Classification of the fetch outcome (src/build/text.js lines 20-37):
a thrown error anywhere in the try block is caught and yields false; a
non-ok status throws (after logging the body text) and so yields false;
an ok status with unparsable JSON yields false; an ok status whose JSON
`errcode` differs from 0 (including an absent `errcode`, since
`undefined !== 0`) yields false; an ok status with `errcode = 0` yields
true. -/
def dispatchResult : FetchOutcome → Bool
  | FetchOutcome.networkError => false
  | FetchOutcome.bodyReadError _ => false
  | FetchOutcome.resp status _ parsed =>
    if responseOk status then
      match parsed with
      | none => false
      | some j =>
        match j.errcode with
        | some e => if e ≠ 0 then false else true
        | none => false
    else false

/-- The dispatcher `sendWeChatTextMessage` of src/build/text.js: builds the
request, performs exactly one fetch, classifies the outcome.  The second
component is the list of HTTP requests issued during the call. -/
def sendWeChatTextMessage (webhookKey content : String) (chatid : Option String)
    (mentioned_list mentioned_mobile_list : Option (List String))
    (fetch : HttpRequest → FetchOutcome) : Bool × List HttpRequest :=
  (dispatchResult
      (fetch (buildRequest webhookKey content chatid mentioned_list mentioned_mobile_list)),
   [buildRequest webhookKey content chatid mentioned_list mentioned_mobile_list])

/-- A content block of an MCP tool response. -/
structure ContentBlock where
  type : String
  text : String
deriving DecidableEq

/-- The envelope returned by the tool handler: a list of content blocks and
nothing else (no structured error field is ever set). -/
structure ToolResponse where
  content : List ContentBlock
deriving DecidableEq

/-- The `sendWeChatTextMessage` tool handler of src/unnamed/part_000: calls
the dispatcher and maps its boolean result to a single plain-text content
block, a failure text for false and a success text for true. -/
def sendWeChatTextMessageToolHandler (webhookKey content : String)
    (chatid : Option String) (mentioned_list mentioned_mobile_list : Option (List String))
    (fetch : HttpRequest → FetchOutcome) : ToolResponse :=
  if !(sendWeChatTextMessage webhookKey content chatid mentioned_list
      mentioned_mobile_list fetch).fst then
    { content := [{ type := "text", text := "企业微信消息发送失败" }] }
  else
    { content := [{ type := "text", text := "企业微信消息发送成功" }] }

/-- One entry of an MCP resource response. -/
structure ResourceContent where
  uri : String
  text : String
deriving DecidableEq

/-- The envelope returned by the resource handler. -/
structure ResourceResponse where
  contents : List ResourceContent
deriving DecidableEq

/-- The `api` resource handler of src/unnamed/part_000: reading the local
api.md is modelled by `fileRead` (`none` when the read throws); a failed
read is caught and replaced by the fixed placeholder text. -/
def apiResourceHandler (uriHref : String) (fileRead : Option String) : ResourceResponse :=
  match fileRead with
  | some c => { contents := [{ uri := uriHref, text := c }] }
  | none => { contents := [{ uri := uriHref, text := "读取文件失败" }] }

/-- A stub endpoint: HTTP 200, body parses with errcode 0. -/
def fetchStubOk : HttpRequest → FetchOutcome :=
  fun _ => FetchOutcome.resp 200 "" (some { errcode := some 0, errmsg := none })

/-- A stub endpoint: HTTP 500 with an unparsed body text. -/
def fetchStub500 : HttpRequest → FetchOutcome :=
  fun _ => FetchOutcome.resp 500 "server error" none

/-- A stub endpoint: HTTP 200 with application error code 93000. -/
def fetchStubErrcode : HttpRequest → FetchOutcome :=
  fun _ => FetchOutcome.resp 200 "" (some { errcode := some 93000, errmsg := some "invalid key" })

/-- A stub endpoint whose fetch throws. -/
def fetchStubNetworkError : HttpRequest → FetchOutcome :=
  fun _ => FetchOutcome.networkError

/-- A stub endpoint whose body read throws. -/
def fetchStubBodyReadError : HttpRequest → FetchOutcome :=
  fun _ => FetchOutcome.bodyReadError 200

/-- A stub endpoint: HTTP 200 with a body that is not valid JSON. -/
def fetchStubBadJson : HttpRequest → FetchOutcome :=
  fun _ => FetchOutcome.resp 200 "not json" none

/-- C1: whenever the endpoint answers the dispatched request with an HTTP
success status and a JSON body whose errcode field equals 0, the dispatcher
returns true (Sent). -/
theorem dispatch_success_sent (webhookKey content : String) (chatid : Option String)
    (ml mml : Option (List String)) (fetch : HttpRequest → FetchOutcome)
    (status : Nat) (bodyText : String) (errmsg : Option String)
    (hok : responseOk status = true)
    (hresp : fetch (buildRequest webhookKey content chatid ml mml) =
      FetchOutcome.resp status bodyText (some { errcode := some 0, errmsg := errmsg })) :
    (sendWeChatTextMessage webhookKey content chatid ml mml fetch).fst = true := by
  simp [sendWeChatTextMessage, hresp, dispatchResult, hok]

/-- Witness for C1 at a concrete request and stub endpoint. -/
theorem dispatch_success_sent_witness :
    (sendWeChatTextMessage "K" "hello" none none none fetchStubOk).fst = true :=
  dispatch_success_sent "K" "hello" none none none fetchStubOk 200 "" none (by decide) rfl

/-- C2: the dispatcher returns false both when the endpoint answers with any
HTTP status at least 300 (whatever the body), and when it answers HTTP 200
with a JSON body whose errcode is non-zero. -/
theorem dispatch_failure_cases (webhookKey content : String) (chatid : Option String)
    (ml mml : Option (List String)) (fetch : HttpRequest → FetchOutcome) :
    (∀ status bodyText parsed, 300 ≤ status →
      fetch (buildRequest webhookKey content chatid ml mml) =
        FetchOutcome.resp status bodyText parsed →
      (sendWeChatTextMessage webhookKey content chatid ml mml fetch).fst = false) ∧
    (∀ (e : Int) bodyText errmsg, e ≠ 0 →
      fetch (buildRequest webhookKey content chatid ml mml) =
        FetchOutcome.resp 200 bodyText (some { errcode := some e, errmsg := errmsg }) →
      (sendWeChatTextMessage webhookKey content chatid ml mml fetch).fst = false) := by
  constructor
  · intro status bodyText parsed hge hresp
    have hok : responseOk status = false := by
      simp [responseOk]
      omega
    simp [sendWeChatTextMessage, hresp, dispatchResult, hok]
  · intro e bodyText errmsg hne hresp
    simp [sendWeChatTextMessage, hresp, dispatchResult, responseOk, hne]

/-- Witness for C2: an HTTP 500 answer and an HTTP 200 answer carrying
errcode 93000 both yield false. -/
theorem dispatch_failure_cases_witness :
    (sendWeChatTextMessage "K" "hi" none none none fetchStub500).fst = false ∧
    (sendWeChatTextMessage "K" "hi" none none none fetchStubErrcode).fst = false :=
  ⟨(dispatch_failure_cases "K" "hi" none none none fetchStub500).1 500 "server error" none
      (by decide) rfl,
   (dispatch_failure_cases "K" "hi" none none none fetchStubErrcode).2 93000 ""
      (some "invalid key") (by decide) rfl⟩

/-- C3: the constructed payload has msgtype "text" and carries the request
content verbatim, and each mention field is present exactly when the input
list is present and non-empty, in which case it equals that list. -/
theorem buildPayload_spec (content : String) (ml mml : Option (List String)) :
    (buildPayload content ml mml).msgtype = "text" ∧
    (buildPayload content ml mml).text.content = content ∧
    (∀ l : List String, (buildPayload content ml mml).text.mentioned_list = some l ↔
      (ml = some l ∧ l ≠ [])) ∧
    (∀ l : List String, (buildPayload content ml mml).text.mentioned_mobile_list = some l ↔
      (mml = some l ∧ l ≠ [])) := by
  refine ⟨rfl, rfl, ?_, ?_⟩
  · intro l
    cases ml with
    | none => simp [buildPayload]
    | some xs =>
      by_cases hxs : xs = []
      · subst hxs
        simp [buildPayload]
      · have hlen : xs.length > 0 := List.length_pos.mpr hxs
        simp only [buildPayload, hlen, if_pos]
        constructor
        · intro h
          cases h
          exact ⟨rfl, hxs⟩
        · intro h
          exact h.1
  · intro l
    cases mml with
    | none => simp [buildPayload]
    | some xs =>
      by_cases hxs : xs = []
      · subst hxs
        simp [buildPayload]
      · have hlen : xs.length > 0 := List.length_pos.mpr hxs
        simp only [buildPayload, hlen, if_pos]
        constructor
        · intro h
          cases h
          exact ⟨rfl, hxs⟩
        · intro h
          exact h.1

/-- Witness for C3: an empty mention list produces no field and the list
containing a and b is carried over exactly. -/
theorem buildPayload_spec_witness :
    (buildPayload "hi" (some ["a", "b"]) (some [])).text.mentioned_list = some ["a", "b"] ∧
    ¬ (buildPayload "hi" (some ["a", "b"]) (some [])).text.mentioned_mobile_list = some [] :=
  ⟨((buildPayload_spec "hi" (some ["a", "b"]) (some [])).2.2.1 ["a", "b"]).mpr
      ⟨rfl, by decide⟩,
   fun h => (((buildPayload_spec "hi" (some ["a", "b"]) (some [])).2.2.2 []).mp h).2 rfl⟩

/-- C4: every dispatch issues exactly the one request built by buildRequest,
a POST to the webhook endpoint with the key as the ?key= query credential,
Content-Type application/json, body the JSON serialization of the payload;
and for webhookKey "K", content "hello" and no options the body is exactly
the two-field JSON object of the scenario. -/
theorem dispatch_request_shape (webhookKey content : String) (chatid : Option String)
    (ml mml : Option (List String)) (fetch : HttpRequest → FetchOutcome) :
    (sendWeChatTextMessage webhookKey content chatid ml mml fetch).snd =
      [buildRequest webhookKey content chatid ml mml] ∧
    (buildRequest webhookKey content chatid ml mml).method = "POST" ∧
    (buildRequest webhookKey content chatid ml mml).url =
      "https://qyapi.weixin.qq.com/cgi-bin/webhook/send?key=" ++ webhookKey ∧
    (buildRequest webhookKey content chatid ml mml).contentType = "application/json" ∧
    (buildRequest webhookKey content chatid ml mml).body =
      stringifyPayload (buildPayload content ml mml) ∧
    (buildRequest "K" "hello" none none none).body =
      "\x7b\"msgtype\":\"text\",\"text\":\x7b\"content\":\"hello\"\x7d\x7d" :=
  ⟨rfl, rfl, rfl, rfl, rfl, by decide⟩

/-- Witness for C4 at a concrete request. -/
theorem dispatch_request_shape_witness :
    (sendWeChatTextMessage "K" "hello" none none none fetchStubOk).snd =
      [buildRequest "K" "hello" none none none] :=
  (dispatch_request_shape "K" "hello" none none none fetchStubOk).1

/-- C5: the chatid argument has no effect on the outbound request or on the
whole dispatch: any two values of chatid give the same built request and
the same dispatcher behaviour. -/
theorem chatid_no_effect (webhookKey content : String) (chatid1 chatid2 : Option String)
    (ml mml : Option (List String)) (fetch : HttpRequest → FetchOutcome) :
    buildRequest webhookKey content chatid1 ml mml =
      buildRequest webhookKey content chatid2 ml mml ∧
    sendWeChatTextMessage webhookKey content chatid1 ml mml fetch =
      sendWeChatTextMessage webhookKey content chatid2 ml mml fetch :=
  ⟨rfl, rfl⟩

/-- Witness for C5: present, absent and different chatid values all build
the identical request. -/
theorem chatid_no_effect_witness :
    buildRequest "K" "hello" (some "group1") none none =
      buildRequest "K" "hello" none none none :=
  (chatid_no_effect "K" "hello" (some "group1") none none none fetchStubOk).1

/-- C6: the tool handler always returns the same well-formed envelope, one
plain-text content block, whose text is the success message when the
dispatcher returns true and the failure message when it returns false. -/
theorem toolHandler_envelope (webhookKey content : String) (chatid : Option String)
    (ml mml : Option (List String)) (fetch : HttpRequest → FetchOutcome) :
    sendWeChatTextMessageToolHandler webhookKey content chatid ml mml fetch =
      { content := [{ type := "text"
                      text := if (sendWeChatTextMessage webhookKey content chatid
                                  ml mml fetch).fst
                              then "企业微信消息发送成功"
                              else "企业微信消息发送失败" }] } := by
  unfold sendWeChatTextMessageToolHandler
  cases h : (sendWeChatTextMessage webhookKey content chatid ml mml fetch).fst <;> simp [h]

/-- Witness for C6: a failing endpoint yields the failure text block and a
succeeding endpoint yields the success text block. -/
theorem toolHandler_envelope_witness :
    sendWeChatTextMessageToolHandler "K" "hi" none none none fetchStubNetworkError =
      { content := [{ type := "text", text := "企业微信消息发送失败" }] } ∧
    sendWeChatTextMessageToolHandler "K" "hi" none none none fetchStubOk =
      { content := [{ type := "text", text := "企业微信消息发送成功" }] } :=
  ⟨toolHandler_envelope "K" "hi" none none none fetchStubNetworkError,
   toolHandler_envelope "K" "hi" none none none fetchStubOk⟩

/-- C7: whenever reading the documentation file fails, the resource handler
returns the well-formed envelope whose single text is the fixed
placeholder; being a total function it propagates no exception. -/
theorem apiResource_read_failure (uriHref : String) (fileRead : Option String)
    (h : fileRead = none) :
    apiResourceHandler uriHref fileRead =
      { contents := [{ uri := uriHref, text := "读取文件失败" }] } := by
  subst h
  rfl

/-- Witness for C7 at the resource URI with a failed read. -/
theorem apiResource_read_failure_witness :
    apiResourceHandler "file:///api.md" none =
      { contents := [{ uri := "file:///api.md", text := "读取文件失败" }] } :=
  apiResource_read_failure "file:///api.md" none rfl

/-- C8: each dispatch issues exactly one HTTP request, and the combined
trace of two identical dispatch calls holds two requests, one per call,
with no deduplication. -/
theorem dispatch_single_call (webhookKey content : String) (chatid : Option String)
    (ml mml : Option (List String)) (fetch : HttpRequest → FetchOutcome) :
    (sendWeChatTextMessage webhookKey content chatid ml mml fetch).snd.length = 1 ∧
    ((sendWeChatTextMessage webhookKey content chatid ml mml fetch).snd ++
      (sendWeChatTextMessage webhookKey content chatid ml mml fetch).snd).length = 2 :=
  ⟨rfl, rfl⟩

/-- Witness for C8 at a concrete request. -/
theorem dispatch_single_call_witness :
    (sendWeChatTextMessage "K" "hi" none none none fetchStubOk).snd.length = 1 :=
  (dispatch_single_call "K" "hi" none none none fetchStubOk).1

/-- C9: the dispatcher is a total boolean-valued function, and each caught
failure path, a thrown fetch, a thrown body read, an ok status with a body
that is not valid JSON, and a non-ok status whatever the body, yields
false rather than an exception. -/
theorem dispatch_total_no_exception (webhookKey content : String) (chatid : Option String)
    (ml mml : Option (List String)) (fetch : HttpRequest → FetchOutcome) :
    ((sendWeChatTextMessage webhookKey content chatid ml mml fetch).fst = true ∨
      (sendWeChatTextMessage webhookKey content chatid ml mml fetch).fst = false) ∧
    (fetch (buildRequest webhookKey content chatid ml mml) = FetchOutcome.networkError →
      (sendWeChatTextMessage webhookKey content chatid ml mml fetch).fst = false) ∧
    (∀ status, fetch (buildRequest webhookKey content chatid ml mml) =
        FetchOutcome.bodyReadError status →
      (sendWeChatTextMessage webhookKey content chatid ml mml fetch).fst = false) ∧
    (∀ status bodyText, responseOk status = true →
      fetch (buildRequest webhookKey content chatid ml mml) =
        FetchOutcome.resp status bodyText none →
      (sendWeChatTextMessage webhookKey content chatid ml mml fetch).fst = false) ∧
    (∀ status bodyText parsed, responseOk status = false →
      fetch (buildRequest webhookKey content chatid ml mml) =
        FetchOutcome.resp status bodyText parsed →
      (sendWeChatTextMessage webhookKey content chatid ml mml fetch).fst = false) := by
  refine ⟨?_, ?_, ?_, ?_, ?_⟩
  · cases h : (sendWeChatTextMessage webhookKey content chatid ml mml fetch).fst
    · exact Or.inr rfl
    · exact Or.inl rfl
  · intro hresp
    simp [sendWeChatTextMessage, hresp, dispatchResult]
  · intro status hresp
    simp [sendWeChatTextMessage, hresp, dispatchResult]
  · intro status bodyText hok hresp
    simp [sendWeChatTextMessage, hresp, dispatchResult, hok]
  · intro status bodyText parsed hok hresp
    simp [sendWeChatTextMessage, hresp, dispatchResult, hok]

/-- Witness for C9: the four failure paths at concrete stub endpoints all
evaluate to false. -/
theorem dispatch_total_no_exception_witness :
    (sendWeChatTextMessage "K" "hi" none none none fetchStubNetworkError).fst = false ∧
    (sendWeChatTextMessage "K" "hi" none none none fetchStubBodyReadError).fst = false ∧
    (sendWeChatTextMessage "K" "hi" none none none fetchStubBadJson).fst = false ∧
    (sendWeChatTextMessage "K" "hi" none none none fetchStub500).fst = false :=
  ⟨(dispatch_total_no_exception "K" "hi" none none none fetchStubNetworkError).2.1 rfl,
   (dispatch_total_no_exception "K" "hi" none none none fetchStubBodyReadError).2.2.1 200 rfl,
   (dispatch_total_no_exception "K" "hi" none none none fetchStubBadJson).2.2.2.1 200
      "not json" (by decide) rfl,
   (dispatch_total_no_exception "K" "hi" none none none fetchStub500).2.2.2.2 500
      "server error" none (by decide) rfl⟩

/-- C10: the webhook key is spliced into the URL verbatim, the URL is the
fixed endpoint followed by the key with no percent-encoding, so URL
metacharacters in the key, such as the ampersand or the hash below, reach
the query string unchanged. -/
theorem webhook_url_verbatim (key : String) :
    WECHAT_API_URL key =
      "https://qyapi.weixin.qq.com/cgi-bin/webhook/send?key=" ++ key ∧
    WECHAT_API_URL "a&b=c #d" =
      "https://qyapi.weixin.qq.com/cgi-bin/webhook/send?key=a&b=c #d" :=
  ⟨rfl, rfl⟩

/-- Witness for C10 at a key carrying URL metacharacters. -/
theorem webhook_url_verbatim_witness :
    WECHAT_API_URL "a&b=c #d" =
      "https://qyapi.weixin.qq.com/cgi-bin/webhook/send?key=a&b=c #d" :=
  (webhook_url_verbatim "a&b=c #d").2
